import Mathlib

set_option maxRecDepth 8000

/-! # Verification of the Disease Explorer core logic

Shallow embedding of `miniproject.py`: the data model, the filter engine
(`apply_filters`), the detail lookup, the insights metrics, the cross
tabulation, and the CSV export/load pair, together with theorems settling
the specification's claims about them. -/

/-- One row of the disease table, as produced by `pd.read_csv` on the six
column dataset. Every text column of a pandas frame is nullable (a missing
cell reads as NaN), so the four text fields are `Option String`; the two
boolean columns are `Bool` (the spec's invariant says they are never null,
and the code uses them as booleans throughout). -/
structure Record where
  name : Option String
  symptoms : Option String
  treatments : Option String
  diseaseCode : Option String
  contagious : Bool
  chronic : Bool
deriving DecidableEq, Repr

/-- The sidebar filter state of `miniproject.py` (lines 86-91): the free
text search box, the two `selectbox` values (each one of the strings
`"All"`, `"Yes"`, `"No"` in the UI, kept as `String` exactly as the code
compares them), and the `top_n` slider value. -/
structure FilterSpec where
  searchTerm : String
  contagious : String
  chronic : String
  maxRows : Nat
deriving DecidableEq, Repr

/-- Modelled fragment of Python `re` matching one pattern character
case-insensitively (`re.IGNORECASE`, as produced by `str.contains(...,
case=False)`): the wildcard `.` matches any character except a newline,
and any other pattern character matches itself up to case. Only the
literal/wildcard fragment of Python regular expressions is modelled;
no theorem in this file relies on any construct outside this fragment. -/
def reMatchHere : List Char → List Char → Bool
  | [], _ => true
  | _ :: _, [] => false
  | p :: ps, c :: cs =>
      (if p == '.' then c != '\n' else p.toLower == c.toLower) && reMatchHere ps cs

/-- Python `re.search`: the pattern may match starting at any position of
the text. -/
def reSearch (pat : List Char) : List Char → Bool
  | [] => reMatchHere pat []
  | c :: cs => reMatchHere pat (c :: cs) || reSearch pat cs

/-- `Series.str.contains(term, case=False, na=False)` applied to one cell:
a missing value (NaN) yields `False` because of `na=False`; otherwise the
term is treated as a regular expression (`regex=True` is the pandas
default) and searched for anywhere in the cell, ignoring case. -/
def strContainsPd (term : String) (cell : Option String) : Bool :=
  match cell with
  | none => false
  | some s => reSearch term.toList s.toList

/-- The boolean mask of `apply_filters` lines 102-105: Name matches or
Symptoms matches. -/
def searchMask (term : String) (r : Record) : Bool :=
  strContainsPd term r.name || strContainsPd term r.symptoms

/-- `apply_filters` (miniproject.py lines 97-115): optional text search,
optional Contagious equality filter, optional Chronic equality filter,
then `.head(top_n)`. `if search_term:` is Python truthiness, i.e. the
search runs exactly when the term is nonempty; `head` of a nonnegative
count is `List.take`. -/
def apply_filters (dataframe : List Record) (s : FilterSpec) : List Record :=
  let f1 := if s.searchTerm == "" then dataframe else dataframe.filter (searchMask s.searchTerm)
  let f2 := if s.contagious != "All" then f1.filter (fun r => r.contagious == (s.contagious == "Yes")) else f1
  let f3 := if s.chronic != "All" then f2.filter (fun r => r.chronic == (s.chronic == "Yes")) else f2
  f3.take s.maxRows

/-- The search predicate of the spec's step 1, as the code implements it:
vacuously true when the term is empty (the branch is skipped), otherwise
the name-or-symptoms mask. -/
def searchKeeps (s : FilterSpec) (r : Record) : Bool :=
  (s.searchTerm == "") || searchMask s.searchTerm r

/-- The contagious predicate of the spec's step 2, as the code implements
it: vacuously true when the selectbox reads `"All"`. -/
def contagiousKeeps (s : FilterSpec) (r : Record) : Bool :=
  !(s.contagious != "All") || (r.contagious == (s.contagious == "Yes"))

/-- The chronic predicate of the spec's step 3, as the code implements it:
vacuously true when the selectbox reads `"All"`. -/
def chronicKeeps (s : FilterSpec) (r : Record) : Bool :=
  !(s.chronic != "All") || (r.chronic == (s.chronic == "Yes"))

/-- The conjunction of the search, contagious and chronic predicates. -/
def keepsRecord (s : FilterSpec) (r : Record) : Bool :=
  searchKeeps s r && contagiousKeeps s r && chronicKeeps s r

/-- The detail lookup of miniproject.py line 159:
`filtered_df[filtered_df["Name"] == selected_name].iloc[0]` — a boolean
equality mask over the `Name` column followed by `.iloc[0]`, which
returns the first row of the mask's result and raises `IndexError` when
that result is empty. The pandas comparison `NaN == string` is `False`,
so a record with a missing name never matches. -/
def detailLookup (table : List Record) (selectedName : String) : Except String Record :=
  match table.filter (fun r => r.name == some selectedName) with
  | [] => Except.error "IndexError"
  | r :: _ => Except.ok r

/-- Python integer division `a / b` as run on the metric deltas of lines
191-192: true division producing a float (modelled as `Rat`), raising
`ZeroDivisionError` when the denominator is zero. (On a table loaded from
a header-only CSV the columns have object dtype, `.sum()` of an empty
object column is the Python int `0`, and `0/0` raises.) -/
def pyDiv (a b : Nat) : Except String Rat :=
  if b = 0 then Except.error "ZeroDivisionError" else Except.ok ((a : Rat) / (b : Rat))

/-- The three metric numbers of the Insights tab plus the two formatted
percentage ratios. -/
structure Metrics where
  total : Nat
  contagiousCnt : Nat
  chronicCnt : Nat
  contagiousPct : Rat
  chronicPct : Rat
deriving DecidableEq, Repr

/-- The Insights tab metrics (miniproject.py lines 185-192):
`total_cnt = len(df)`, `contagious_cnt = df["Contagious"].sum()` (the sum
of a boolean column is the number of `True` entries), likewise for
chronic, and the two deltas `contagious_cnt/total_cnt` and
`chronic_cnt/total_cnt` computed by unguarded division. -/
def insightsMetrics (df : List Record) : Except String Metrics := do
  let total := df.length
  let cont := (df.filter (fun r => r.contagious)).length
  let chron := (df.filter (fun r => r.chronic)).length
  let cpct ← pyDiv cont total
  let hpct ← pyDiv chron total
  Except.ok ⟨total, cont, chron, cpct, hpct⟩

/-- The distinct values observed in a boolean column, in sorted order
(`False` before `True`), exactly the index pandas `crosstab` builds from
a boolean Series: only observed values appear. -/
def observedVals (l : List Bool) : List Bool :=
  (if false ∈ l then [false] else []) ++ (if true ∈ l then [true] else [])

/-- The number of records with the given (Contagious, Chronic) value
pair. -/
def cellCount (df : List Record) (c k : Bool) : Nat :=
  (df.filter (fun r => r.contagious == c && r.chronic == k)).length

/-- The result shape of `pd.crosstab(df["Contagious"], df["Chronic"],
margins=True)`: row labels (observed Contagious values), column labels
(observed Chronic values), the body grid of counts, the `All` margin
column (one entry per row label), the `All` margin row (one entry per
column label) and the corner cell. -/
structure CrossTab where
  rowLabels : List Bool
  colLabels : List Bool
  body : List (List Nat)
  rowAll : List Nat
  colAll : List Nat
  corner : Nat
deriving DecidableEq, Repr

/-- `pd.crosstab(df["Contagious"], df["Chronic"], margins=True)`
(miniproject.py line 220). Labels are the observed values of each column;
each body cell counts the records with that value pair; the margins count
over the whole data (the `All` column entry for a Contagious value counts
all records with that value, the `All` row entry for a Chronic value
counts all records with that value) and the corner is the total record
count. Modelled for nonempty tables (crosstab of empty inputs with
margins is not exercised by the program or by any theorem below). -/
def crosstab (df : List Record) : CrossTab :=
  let rL := observedVals (df.map (fun r => r.contagious))
  let cL := observedVals (df.map (fun r => r.chronic))
  { rowLabels := rL
    colLabels := cL
    body := rL.map (fun c => cL.map (fun k => cellCount df c k))
    rowAll := rL.map (fun c => (df.filter (fun r => r.contagious == c)).length)
    colAll := cL.map (fun k => (df.filter (fun r => r.chronic == k)).length)
    corner := df.length }

/-- The possible values of the `top_n` slider
`st.slider("Max rows to display", 10, 500, 100, step=10)`
(miniproject.py line 91): 10, 20, ..., 500. -/
def topNChoices : List Nat :=
  (List.range 50).map (fun i => 10 + 10 * i)

/-- Case-insensitive ASCII prefix test on character lists (spec-side
helper). -/
def isPrefixL : List Char → List Char → Bool
  | [], _ => true
  | _ :: _, [] => false
  | a :: as, b :: bs => a == b && isPrefixL as bs

/-- Substring occurrence on character lists (spec-side helper). -/
def hasSub (p : List Char) : List Char → Bool
  | [] => p.isEmpty
  | c :: cs => isPrefixL p (c :: cs) || hasSub p cs

/-- The specification's notion of matching, written from the spec's words
for comparison with the code's `strContainsPd`: "contains the term as a
substring, case-insensitively". -/
def substrCI (term s : String) : Bool :=
  hasSub (term.toList.map Char.toLower) (s.toList.map Char.toLower)

/-- The specification's per-field search predicate: a null/absent field
"is treated as not matching on that field only". -/
def substrCIOpt (term : String) (cell : Option String) : Bool :=
  match cell with
  | none => false
  | some s => substrCI term s

/-- The characters Python `re` treats specially; a term avoiding all of
them is a plain literal pattern. -/
def reMetachars : List Char :=
  ['.', '^', '$', '*', '+', '?', '\x7b', '\x7d', '[', ']', '\\', '|', '(', ')']

/-- The quote character (written via its code point to keep character
literals simple). -/
def dq : Char := Char.ofNat 34

/-- Whether `to_csv` must quote a cell: minimal quoting quotes exactly the
cells containing the delimiter, the quote character, or a line break. -/
def needsQuote (s : String) : Bool :=
  s.toList.any (fun c => c == ',' || c == dq || c == '\n' || c == '\r')

/-- Inside a quoted cell every quote character is doubled. -/
def escQuote : List Char → List Char
  | [] => []
  | c :: cs => if c = dq then dq :: dq :: escQuote cs else c :: escQuote cs

/-- One cell as `to_csv` writes it (minimal quoting). -/
def renderCell (s : String) : List Char :=
  if needsQuote s then dq :: (escQuote s.toList ++ [dq]) else s.toList

/-- One row as `to_csv` writes it: cells joined by commas. -/
def renderRow : List String → List Char
  | [] => []
  | [c] => renderCell c
  | c :: cs => renderCell c ++ ',' :: renderRow cs

/-- All rows, each terminated by a newline (`to_csv` to a string uses
`"\n"` as the line terminator and terminates the final row too). -/
def renderRows : List (List String) → List Char
  | [] => []
  | r :: rs => renderRow r ++ '\n' :: renderRows rs

/-- `DataFrame.to_csv(index=False)` on a frame given as header plus token
rows. The subsequent `.encode("utf-8")` is injective, so byte equality of
the exports is string equality here. -/
def to_csv (rows : List (List String)) : String :=
  String.mk (renderRows rows)

/-- The CSV tokenizer of `pd.read_csv`: a single pass with a quote state.
Outside quotes a comma ends the cell, a newline ends the row (an entirely
blank line is skipped, pandas' default `skip_blank_lines=True`), and a
quote at the start of a cell opens a quoted cell; inside quotes a doubled
quote is a literal quote and any other character (including commas and
newlines) is data. -/
def csvAux : List Char → Bool → List Char → List String → List (List String) → List (List String)
  | [], _, cell, row, acc =>
      if cell = [] ∧ row = [] then acc else acc ++ [row ++ [String.mk cell]]
  | [c], true, cell, row, acc =>
      if c = dq then
        (if cell = [] ∧ row = [] then acc else acc ++ [row ++ [String.mk cell]])
      else acc ++ [row ++ [String.mk (cell ++ [c])]]
  | c :: c2 :: cs, true, cell, row, acc =>
      if c = dq then
        (if c2 = dq then csvAux cs true (cell ++ [dq]) row acc
         else csvAux (c2 :: cs) false cell row acc)
      else csvAux (c2 :: cs) true (cell ++ [c]) row acc
  | c :: cs, false, cell, row, acc =>
      if c = ',' then csvAux cs false [] (row ++ [String.mk cell]) acc
      else if c = '\n' then
        (if cell = [] ∧ row = [] then csvAux cs false [] [] acc
         else csvAux cs false [] [] (acc ++ [row ++ [String.mk cell]]))
      else if c = dq ∧ cell = [] then csvAux cs true cell row acc
      else csvAux cs false (cell ++ [c]) row acc

/-- Tokenize a whole CSV text. -/
def read_csv_tokens (s : String) : List (List String) :=
  csvAux s.toList false [] [] []

/-- A loaded frame: the header row and the data rows, as token lists. -/
structure Frame where
  header : List String
  rows : List (List String)
deriving DecidableEq, Repr

/-- `load_data` (miniproject.py lines 65-68): the body is exactly
`pd.read_csv(path)` — the file is tokenized, the first row becomes the
column header, the rest become the data rows, and nothing else happens:
no schema validation of any kind. File-system errors (missing file) are
outside the embedding, which starts from the file contents. -/
def load_data (contents : String) : Frame :=
  match read_csv_tokens contents with
  | [] => ⟨[], []⟩
  | h :: t => ⟨h, t⟩

/-- pandas' default NaN tokens: a cell reading as one of these (in
particular, the empty cell) is a missing value in the loaded frame. -/
def naTokens : List String :=
  ["", "#N/A", "#N/A N/A", "#NA", "-1.#IND", "-1.#QNAN", "-NaN", "-nan",
   "1.#IND", "1.#QNAN", "<NA>", "N/A", "NA", "NULL", "NaN", "None",
   "n/a", "nan", "null"]

/-- The tokens pandas' bool dtype inference recognises. -/
def boolLikeTokens : List String :=
  ["True", "TRUE", "true", "False", "FALSE", "false"]

/-- The whitespace characters pandas' numeric converters skip before and
after a number. -/
def pdSpace (c : Char) : Bool :=
  c == ' ' || c == '\t' || c == '\n' || c == '\r' || c == '\x0b' || c == '\x0c'

/-- Strip the surrounding whitespace pandas' numeric converters ignore. -/
def stripPdSpace (l : List Char) : List Char :=
  ((l.dropWhile pdSpace).reverse.dropWhile pdSpace).reverse

/-- Strip one optional leading sign, as pandas' numeric converters do. -/
def dropSign : List Char → List Char
  | [] => []
  | c :: rest => if c = '+' ∨ c = '-' then rest else c :: rest

/-- Conservative over-approximation of the tokens pandas numeric
inference could convert to an int/float: after stripping the surrounding
whitespace and one optional sign that the converters ignore, the token
reads `inf`/`infinity` in any case, or it contains a digit and only
digit/sign/point/exponent characters. Anything the converters could
accept (including `" 1"`, `"-INF"`, `"Infinity "`) satisfies this;
tokens it admits beyond those only strengthen the stability hypothesis
below. -/
def looksNumeric (s : String) : Bool :=
  let core := dropSign (stripPdSpace s.toList)
  (core.map Char.toLower == "inf".toList)
    || (core.map Char.toLower == "infinity".toList)
    || (core.any (fun c => c.isDigit)
        && core.all (fun c =>
            c.isDigit || c == '+' || c == '-' || c == '.' || c == 'e' || c == 'E'))

/-- Decoding of a string-column cell under `read_csv`: a NaN token becomes
a missing value, anything else stays a string. (This models the object
dtype outcome; columns that pandas would instead coerce wholesale to a
numeric, infinite-float or boolean dtype are kept out of every theorem by
the `stableCell` hypothesis below, whose `looksNumeric` part
over-approximates everything the numeric converters accept.) -/
def decodeStr (s : String) : Option String :=
  if naTokens.contains s then none else some s

/-- Decoding of a boolean-column cell under `read_csv` bool inference. -/
def decodeBool (s : String) : Except String Bool :=
  if s = "True" ∨ s = "TRUE" ∨ s = "true" then Except.ok true
  else if s = "False" ∨ s = "FALSE" ∨ s = "false" then Except.ok false
  else Except.error "dtype"

/-- Column access by name, as pandas keys frames by column label (hence
load/compare is insensitive to column order). -/
def getCol (hdr row : List String) (colName : String) : Except String String :=
  match hdr.findIdx? (fun h => h == colName) with
  | none => Except.error "KeyError"
  | some i =>
      match row[i]? with
      | some v => Except.ok v
      | none => Except.error "ParserError"

/-- Decode one data row of a loaded frame into a `Record`, reading the six
columns by name. -/
def decodeRecord (hdr row : List String) : Except String Record := do
  let n ← getCol hdr row "Name"
  let sy ← getCol hdr row "Symptoms"
  let tr ← getCol hdr row "Treatments"
  let dc ← getCol hdr row "Disease_Code"
  let co ← getCol hdr row "Contagious"
  let ch ← getCol hdr row "Chronic"
  let cb ← decodeBool co
  let hb ← decodeBool ch
  Except.ok ⟨decodeStr n, decodeStr sy, decodeStr tr, decodeStr dc, cb, hb⟩

/-- Decode all data rows. -/
def decodeRows (hdr : List String) : List (List String) → Except String (List Record)
  | [] => Except.ok []
  | row :: rest => do
      let r ← decodeRecord hdr row
      let rs ← decodeRows hdr rest
      Except.ok (r :: rs)

/-- `pd.read_csv` on a disease CSV, through to typed records: tokenize,
split off the header, decode each row by column name. -/
def read_table (contents : String) : Except String (List Record) :=
  let f := load_data contents
  decodeRows f.header f.rows

/-- Render an optional text field the way `to_csv` does: missing values
write as the empty cell. -/
def optCell : Option String → String
  | none => ""
  | some s => s

/-- Render a boolean the way `to_csv` does. -/
def boolCell (b : Bool) : String := if b then "True" else "False"

/-- The cells of one record, in the dataset's column order. -/
def recordCells (r : Record) : List String :=
  [optCell r.name, optCell r.symptoms, optCell r.treatments,
   optCell r.diseaseCode, boolCell r.contagious, boolCell r.chronic]

/-- The dataset's header. -/
def schemaHeader : List String :=
  ["Name", "Symptoms", "Treatments", "Disease_Code", "Contagious", "Chronic"]

/-- `convert_df_to_csv` (miniproject.py lines 133-135):
`dataframe.to_csv(index=False).encode("utf-8")`. -/
def convert_df_to_csv (dataframe : List Record) : String :=
  to_csv (schemaHeader :: dataframe.map recordCells)

/-- A text cell the CSV codec maps back to itself: not a NaN token, not a
boolean token, and not numeric-looking in the broad sense of
`looksNumeric` (no int/float/inf parse even after the whitespace and
sign stripping pandas performs — those would make pandas reparse the
cell under a different dtype). Commas, quotes and line breaks are fine —
minimal quoting round-trips them. -/
def stableCell (s : String) : Bool :=
  !(naTokens.contains s) && !(boolLikeTokens.contains s) && !(looksNumeric s)

/-- Stability of an optional text field: missing is stable (it writes as
the empty cell and reads back as missing). -/
def stableOpt : Option String → Bool
  | none => true
  | some s => stableCell s

/-- A record every field of which survives the CSV round trip. -/
def stableRecord (r : Record) : Bool :=
  stableOpt r.name && stableOpt r.symptoms && stableOpt r.treatments && stableOpt r.diseaseCode

deriving instance DecidableEq for Except

/-- A conditionally skipped filter is a filter by a disjunction. -/
theorem filter_if_skip {α : Type} (l : List α) (b : Bool) (p : α → Bool) :
    (if b then l else l.filter p) = l.filter (fun a => b || p a) := by
  cases b <;> simp

/-- A conditionally applied filter is a filter by a disjunction. -/
theorem filter_if_apply {α : Type} (l : List α) (b : Bool) (p : α → Bool) :
    (if b then l.filter p else l) = l.filter (fun a => !b || p a) := by
  cases b <;> simp

/-- The filter engine in one equation: the three conditional filters fuse
into a single filter by the conjunction `keepsRecord`, and truncation is
the final `take`. -/
theorem apply_filters_eq (df : List Record) (s : FilterSpec) :
    apply_filters df s = (df.filter (keepsRecord s)).take s.maxRows := by
  unfold apply_filters
  dsimp only
  rw [filter_if_skip, filter_if_apply, filter_if_apply, List.filter_filter, List.filter_filter]
  congr 1
  refine List.filter_congr fun r _ => ?_
  simp only [keepsRecord, searchKeeps, contagiousKeeps, chronicKeeps]
  cases (s.searchTerm == "") || searchMask s.searchTerm r <;>
    cases !(s.contagious != "All") || (r.contagious == (s.contagious == "Yes")) <;>
    cases !(s.chronic != "All") || (r.chronic == (s.chronic == "Yes")) <;> rfl

/-- The filtered table is a subsequence of the input table. -/
theorem apply_filters_sublist (df : List Record) (s : FilterSpec) :
    (apply_filters df s).Sublist df := by
  rw [apply_filters_eq]
  exact (List.take_sublist _ _).trans (List.filter_sublist df)

/-- The filtered table has at most `maxRows` records. -/
theorem apply_filters_length_le (df : List Record) (s : FilterSpec) :
    (apply_filters df s).length ≤ s.maxRows := by
  rw [apply_filters_eq]
  exact List.length_take_le _ _

/-- The detail lookup equals "first record whose Name exactly equals the
selected name", with `IndexError` when there is none. -/
theorem detailLookup_eq_find (table : List Record) (n : String) :
    detailLookup table n =
      match table.find? (fun r => r.name == some n) with
      | some r => Except.ok r
      | none => Except.error "IndexError" := by
  induction table with
  | nil => rfl
  | cons r t ih =>
      by_cases h : (r.name == some n) = true
      · simp [detailLookup, List.filter_cons, List.find?_cons, h]
      · rw [Bool.not_eq_true] at h
        simpa [detailLookup, List.filter_cons, List.find?_cons, h] using ih

/-- C1: for every table and every FilterSpec, `filter(table, spec)` equals
the first `spec.maxRows` records (in original order) of the subsequence of
the table satisfying the conjunction of the search, contagious and chronic
predicates; the result is a subsequence of the table preserving original
order, its length is at most `spec.maxRows`, and truncation is applied
last, after all predicates. -/
theorem filter_is_truncated_conjunction (table : List Record) (s : FilterSpec) :
    apply_filters table s = (table.filter (keepsRecord s)).take s.maxRows
      ∧ (apply_filters table s).Sublist table
      ∧ (apply_filters table s).length ≤ s.maxRows :=
  ⟨apply_filters_eq table s, apply_filters_sublist table s, apply_filters_length_le table s⟩

/-- C2 (code bug): on an empty table the Insights metrics do not report an
undefined/zero percentage — the unguarded division `contagious_cnt/total_cnt`
at `total_cnt == 0` raises `ZeroDivisionError`, so an empty table makes the
metrics computation fail. -/
theorem metrics_division_fails_on_empty_table :
    insightsMetrics [] = Except.error "ZeroDivisionError" := by rfl

/-- C3 counterexample: when no record's Name equals the queried name, the
detail lookup does not return "nothing" — `.iloc[0]` on the empty mask
result raises `IndexError`. Concretely, on a one-record table queried with
an absent name, no record matches, yet the lookup produces an error rather
than an empty/none result. -/
theorem detailLookup_counterexample_absent_name_raises :
    ([⟨some "Flu", some "fever", none, some "D1", true, false⟩] : List Record).find?
        (fun r => r.name == some "Migraine") = none ∧
      detailLookup [⟨some "Flu", some "fever", none, some "D1", true, false⟩] "Migraine"
        = Except.error "IndexError" :=
  ⟨rfl, rfl⟩

/-- C3 (amended): for every table and name, the detail lookup returns the
first record (in table order) whose Name field exactly equals the name
(exact equality, not substring); when no record's Name equals the name it
raises `IndexError` instead of returning nothing. -/
theorem detailLookup_eq_first_exact_match (table : List Record) (n : String) :
    detailLookup table n =
      match table.find? (fun r => r.name == some n) with
      | some r => Except.ok r
      | none => Except.error "IndexError" :=
  detailLookup_eq_find table n

/-- C6: the neutral FilterSpec (empty search term, both selectboxes on
`"All"`, `maxRows` at least the table length) acts as the identity. -/
theorem neutral_filterspec_identity (table : List Record) (s : FilterSpec)
    (h1 : s.searchTerm = "") (h2 : s.contagious = "All") (h3 : s.chronic = "All")
    (h4 : table.length ≤ s.maxRows) :
    apply_filters table s = table := by
  unfold apply_filters
  dsimp only
  rw [h1, h2, h3]
  simp [List.take_of_length_le h4]

/-- Witness for C6 at a concrete table and the neutral spec. -/
theorem neutral_filterspec_identity_witness :
    (⟨"", "All", "All", 10⟩ : FilterSpec).searchTerm = ""
      ∧ (⟨"", "All", "All", 10⟩ : FilterSpec).contagious = "All"
      ∧ (⟨"", "All", "All", 10⟩ : FilterSpec).chronic = "All"
      ∧ ([⟨some "Flu", some "fever", none, some "D1", true, false⟩] : List Record).length
          ≤ (⟨"", "All", "All", 10⟩ : FilterSpec).maxRows
      ∧ apply_filters [⟨some "Flu", some "fever", none, some "D1", true, false⟩]
          ⟨"", "All", "All", 10⟩
          = [⟨some "Flu", some "fever", none, some "D1", true, false⟩] :=
  ⟨rfl, rfl, rfl, by decide,
    neutral_filterspec_identity _ _ rfl rfl rfl (by decide)⟩

/-- C8 counterexample: with two records sharing the Name `"X"` and a spec
whose Contagious filter removes the first of them, `"X"` is among the
filtered names but the lookup on the filtered table returns the second
record while the lookup on the full table returns the first. -/
theorem lookup_filter_counterexample_duplicate_names :
    some "X" ∈ (apply_filters
        [⟨some "X", some "viral", none, none, true, false⟩,
         ⟨some "X", some "bacterial", none, none, false, false⟩]
        ⟨"", "No", "All", 10⟩).map Record.name
      ∧ detailLookup (apply_filters
            [⟨some "X", some "viral", none, none, true, false⟩,
             ⟨some "X", some "bacterial", none, none, false, false⟩]
            ⟨"", "No", "All", 10⟩) "X"
          ≠ detailLookup
              [⟨some "X", some "viral", none, none, true, false⟩,
               ⟨some "X", some "bacterial", none, none, false, false⟩] "X" :=
  ⟨by decide, by decide⟩

/-- C8 (amended): whenever the queried name occurs on at most one record
of the table, looking the name up in `filter(table, spec)` — provided it
is among the filtered names — returns the same record as looking it up in
the full table, for every spec. -/
theorem lookup_commutes_with_filter_unique_names (table : List Record) (s : FilterSpec)
    (n : String)
    (huniq : (table.filter (fun r => r.name == some n)).length ≤ 1)
    (hmem : some n ∈ (apply_filters table s).map Record.name) :
    detailLookup (apply_filters table s) n = detailLookup table n := by
  obtain ⟨r, hr, hrn⟩ := List.mem_map.mp hmem
  have hrp : (fun r : Record => r.name == some n) r = true := by simp [hrn]
  have hmemf : r ∈ (apply_filters table s).filter (fun r => r.name == some n) :=
    List.mem_filter.mpr ⟨hr, hrp⟩
  have hsub : ((apply_filters table s).filter (fun r => r.name == some n)).Sublist
      (table.filter (fun r => r.name == some n)) :=
    (apply_filters_sublist table s).filter _
  have hne : (apply_filters table s).filter (fun r => r.name == some n) ≠ [] :=
    List.ne_nil_of_mem hmemf
  have h1 : 1 ≤ (table.filter (fun r => r.name == some n)).length := by
    have h2 := hsub.length_le
    have h3 : 1 ≤ ((apply_filters table s).filter (fun r => r.name == some n)).length := by
      cases hq : (apply_filters table s).filter (fun r => r.name == some n) with
      | nil => exact absurd hq hne
      | cons a l => simp
    omega
  obtain ⟨a, ha⟩ := List.length_eq_one.mp (le_antisymm huniq h1)
  have hfe : (apply_filters table s).filter (fun r => r.name == some n) = [a] := by
    rw [ha] at hsub
    rcases List.sublist_singleton.mp hsub with h | h
    · exact absurd h hne
    · exact h
  simp [detailLookup, hfe, ha]

/-- Witness for C8 at a concrete two-record table with distinct names and
the neutral spec. -/
theorem lookup_commutes_witness :
    (([⟨some "A", none, none, none, true, false⟩,
       ⟨some "B", none, none, none, false, false⟩] : List Record).filter
        (fun r => r.name == some "B")).length ≤ 1
      ∧ some "B" ∈ (apply_filters
          [⟨some "A", none, none, none, true, false⟩,
           ⟨some "B", none, none, none, false, false⟩]
          ⟨"", "All", "All", 10⟩).map Record.name
      ∧ detailLookup (apply_filters
            [⟨some "A", none, none, none, true, false⟩,
             ⟨some "B", none, none, none, false, false⟩]
            ⟨"", "All", "All", 10⟩) "B"
          = detailLookup
              [⟨some "A", none, none, none, true, false⟩,
               ⟨some "B", none, none, none, false, false⟩] "B" :=
  ⟨by decide, by decide,
    lookup_commutes_with_filter_unique_names _ _ _ (by decide) (by decide)⟩

/-- C10: every value the `top_n` slider can supply is between 10 and 500
and a multiple of 10, and with such a bound every filtered table the
program produces has length at most 500. -/
theorem slider_bounds_cap_filtered_length (n : Nat) (hn : n ∈ topNChoices) :
    (10 ≤ n ∧ n ≤ 500 ∧ n % 10 = 0)
      ∧ ∀ (table : List Record) (s : FilterSpec), s.maxRows = n →
          (apply_filters table s).length ≤ 500 := by
  obtain ⟨i, hi, rfl⟩ := List.mem_map.mp hn
  rw [List.mem_range] at hi
  refine ⟨⟨by omega, by omega, by omega⟩, ?_⟩
  intro table s hs
  have h := apply_filters_length_le table s
  omega

/-- Witness for C10 at the slider's default value 100. -/
theorem slider_bounds_witness :
    100 ∈ topNChoices
      ∧ ((10 ≤ 100 ∧ 100 ≤ 500 ∧ 100 % 10 = 0)
        ∧ ∀ (table : List Record) (s : FilterSpec), s.maxRows = 100 →
            (apply_filters table s).length ≤ 500) :=
  ⟨by decide, slider_bounds_cap_filtered_length 100 (by decide)⟩

/-- For a pattern without the wildcard, anchored regex matching is
case-insensitive prefix matching. -/
theorem reMatchHere_literal (p : List Char) (hp : '.' ∉ p) :
    ∀ l : List Char, reMatchHere p l = isPrefixL (p.map Char.toLower) (l.map Char.toLower) := by
  induction p with
  | nil => intro l; cases l <;> rfl
  | cons ph ps ih =>
      intro l
      have hph : ph ≠ '.' := fun h => hp (h ▸ List.mem_cons_self ph ps)
      have hps : '.' ∉ ps := fun h => hp (List.mem_cons_of_mem _ h)
      cases l with
      | nil => simp [reMatchHere, isPrefixL]
      | cons c cs => simp [reMatchHere, isPrefixL, ih hps cs, hph]

/-- For a pattern without the wildcard, regex search is case-insensitive
substring occurrence. -/
theorem reSearch_literal (pat : List Char) (hp : '.' ∉ pat) :
    ∀ l : List Char, reSearch pat l = hasSub (pat.map Char.toLower) (l.map Char.toLower) := by
  intro l
  induction l with
  | nil => cases pat <;> rfl
  | cons c cs ih => simp [reSearch, hasSub, reMatchHere_literal pat hp, ih]

/-- C5 counterexample: the search term is interpreted as a regular
expression, not a literal substring. With the term `"a.c"` and a record
named `"abc"`, neither the Name nor the Symptoms contains the term as a
case-insensitive substring (and the Symptoms field is null), yet the
filter keeps the record, because `.` is a regex wildcard. -/
theorem search_counterexample_regex_metachar :
    apply_filters [⟨some "abc", none, none, none, false, false⟩] ⟨"a.c", "All", "All", 10⟩
        = [⟨some "abc", none, none, none, false, false⟩]
      ∧ substrCIOpt "a.c" (some "abc") = false
      ∧ substrCIOpt "a.c" (none : Option String) = false :=
  ⟨by decide, by decide, rfl⟩

/-- C5 (amended): for every table and every nonempty search term built
only of characters that are not regex metacharacters, the search stage
keeps exactly the records whose Name contains the term as a
case-insensitive substring OR whose Symptoms does, a null field counting
as a non-match on that field only. (For terms containing metacharacters
the term acts as a regular expression instead.) -/
theorem search_substring_for_literal_terms (term : String) (hne : term ≠ "")
    (hlit : ∀ c ∈ term.toList, c ∉ reMetachars) (table : List Record) :
    table.filter (searchMask term)
      = table.filter (fun r => substrCIOpt term r.name || substrCIOpt term r.symptoms) := by
  have hdot : '.' ∉ term.toList := fun h => (hlit '.' h) (by decide)
  apply List.filter_congr
  intro r _
  unfold searchMask strContainsPd substrCIOpt substrCI
  cases r.name <;> cases r.symptoms <;> simp [reSearch_literal term.data hdot]

/-- Witness for C5 with the literal term `"flu"` on a three-record table
exercising a Name match, a Symptoms match behind a null Name, and a
non-match. -/
theorem search_substring_witness :
    ("flu" : String) ≠ ""
      ∧ (∀ c ∈ ("flu" : String).toList, c ∉ reMetachars)
      ∧ ([⟨some "Influenza", none, none, none, true, false⟩,
          ⟨none, some "flu-like fever", none, none, false, false⟩,
          ⟨some "Diabetes", some "thirst", none, none, false, true⟩] : List Record).filter
            (searchMask "flu")
          = ([⟨some "Influenza", none, none, none, true, false⟩,
              ⟨none, some "flu-like fever", none, none, false, false⟩,
              ⟨some "Diabetes", some "thirst", none, none, false, true⟩] : List Record).filter
              (fun r => substrCIOpt "flu" r.name || substrCIOpt "flu" r.symptoms) :=
  ⟨by decide, by decide,
    search_substring_for_literal_terms "flu" (by decide) (by decide) _⟩

/-- Splitting a filtered count by a boolean attribute. -/
theorem length_filter_bool_split (l : List Record) (A : Record → Bool) (g : Record → Bool) :
    (l.filter (fun r => A r && !(g r))).length
      + (l.filter (fun r => A r && g r)).length
      = (l.filter A).length := by
  induction l with
  | nil => rfl
  | cons r t ih =>
      by_cases hA : A r = true
      · cases hg : g r <;> simp [List.filter_cons, hA, hg] <;> omega
      · rw [Bool.not_eq_true] at hA
        simpa [List.filter_cons, hA] using ih

/-- A count over the table splits as the sum, over the observed values of
a boolean attribute, of the counts refined by that attribute. -/
theorem length_filter_eq_sum_observed (df : List Record) (sel : Record → Bool)
    (A : Record → Bool) :
    (df.filter A).length
      = ((observedVals (df.map sel)).map
          (fun v => (df.filter (fun r => A r && (sel r == v))).length)).sum := by
  by_cases hf : false ∈ df.map sel <;> by_cases ht : true ∈ df.map sel
  · have hs := length_filter_bool_split df A sel
    simp [observedVals, hf, ht]
    omega
  · have hall : ∀ r ∈ df, sel r = false := by
      intro r hr
      cases hsel : sel r
      · rfl
      · exact absurd (hsel ▸ List.mem_map_of_mem sel hr) ht
    have he : df.filter (fun r => A r && !(sel r)) = df.filter A :=
      List.filter_congr (fun r hr => by simp [hall r hr])
    simp [observedVals, hf, ht, he]
  · have hall : ∀ r ∈ df, sel r = true := by
      intro r hr
      cases hsel : sel r
      · exact absurd (hsel ▸ List.mem_map_of_mem sel hr) hf
      · rfl
    have he : df.filter (fun r => A r && sel r) = df.filter A :=
      List.filter_congr (fun r hr => by simp [hall r hr])
    simp [observedVals, hf, ht, he]
  · cases df with
    | nil => simp [observedVals]
    | cons r t =>
        cases hsel : sel r
        · exact absurd (hsel ▸ List.mem_map_of_mem sel (List.mem_cons_self r t)) hf
        · exact absurd (hsel ▸ List.mem_map_of_mem sel (List.mem_cons_self r t)) ht

/-- C7 counterexample: the cross-tabulation does not have a cell for every
combination of (Contagious in \x7bfalse, true\x7d) x (Chronic in
\x7bfalse, true\x7d) — pandas builds its index from the observed values
only, so on a one-record table the grid collapses to a single body cell
and there is no row for `Contagious = true` and no column for
`Chronic = false` at all. -/
theorem crosstab_counterexample_collapsed_grid :
    (crosstab [⟨some "Asthma", some "wheezing", none, some "D2", false, true⟩]).rowLabels
        = [false]
      ∧ (crosstab [⟨some "Asthma", some "wheezing", none, some "D2", false, true⟩]).colLabels
          = [true]
      ∧ (crosstab [⟨some "Asthma", some "wheezing", none, some "D2", false, true⟩]).body
          = [[1]] :=
  ⟨by decide, by decide, by decide⟩

/-- C7 (amended): for every nonempty table, the cross-tabulation's rows
and columns range over the observed values of the two boolean columns
(the grid collapses when a column is constant); every present body cell
counts exactly the records with that value pair; the `All` column equals
the body's row sums, the `All` row equals the body's column sums, and the
corner cell equals the grand total, the table's length. -/
theorem crosstab_cells_margins_correct (df : List Record) (hne : df ≠ []) :
    (∀ (i j : Nat) (c k : Bool), (crosstab df).rowLabels[i]? = some c →
        (crosstab df).colLabels[j]? = some k →
        ∃ row, (crosstab df).body[i]? = some row ∧ row[j]? = some (cellCount df c k))
      ∧ (crosstab df).rowAll = (crosstab df).body.map List.sum
      ∧ (∀ (j : Nat) (k : Bool), (crosstab df).colLabels[j]? = some k →
          (crosstab df).colAll[j]? = some (((crosstab df).body.map (fun row => row.getD j 0)).sum))
      ∧ (crosstab df).corner = df.length
      ∧ ((crosstab df).rowAll).sum = (crosstab df).corner := by
  refine ⟨?_, ?_, ?_, rfl, ?_⟩
  · intro i j c k hc hk
    simp only [crosstab] at hc hk ⊢
    refine ⟨(observedVals (df.map (fun r => r.chronic))).map (fun k2 => cellCount df c k2), ?_, ?_⟩
    · rw [List.getElem?_map, hc]
      rfl
    · rw [List.getElem?_map, hk]
      rfl
  · simp only [crosstab, List.map_map]
    apply List.map_congr_left
    intro c hc
    simp only [Function.comp_apply]
    rw [length_filter_eq_sum_observed df (fun r => r.chronic) (fun r => r.contagious == c)]
    rfl
  · intro j k hk
    simp only [crosstab] at hk ⊢
    rw [List.getElem?_map, hk, List.map_map]
    simp only [Option.map]
    congr 1
    rw [length_filter_eq_sum_observed df (fun r => r.contagious) (fun r => r.chronic == k)]
    apply congrArg List.sum
    apply List.map_congr_left
    intro c hc
    simp only [Function.comp_apply]
    rw [List.getD_eq_getElem?_getD, List.getElem?_map, hk]
    simp only [Option.map, Option.getD_some]
    unfold cellCount
    congr 1
    exact List.filter_congr (fun r _ => Bool.and_comm _ _)
  · simp only [crosstab]
    simpa using
      (length_filter_eq_sum_observed df (fun r => r.contagious) (fun _ => true)).symm

/-- Witness for C7 on a nonempty two-record table realising all four
value pairs' labels. -/
theorem crosstab_cells_margins_witness :
    ([⟨some "Flu", some "fever", none, some "D1", true, false⟩,
      ⟨some "Asthma", some "wheezing", none, some "D2", false, true⟩] : List Record) ≠ []
      ∧ ((∀ (i j : Nat) (c k : Bool),
            (crosstab [⟨some "Flu", some "fever", none, some "D1", true, false⟩,
              ⟨some "Asthma", some "wheezing", none, some "D2", false, true⟩]).rowLabels[i]?
              = some c →
            (crosstab [⟨some "Flu", some "fever", none, some "D1", true, false⟩,
              ⟨some "Asthma", some "wheezing", none, some "D2", false, true⟩]).colLabels[j]?
              = some k →
            ∃ row, (crosstab [⟨some "Flu", some "fever", none, some "D1", true, false⟩,
                ⟨some "Asthma", some "wheezing", none, some "D2", false, true⟩]).body[i]?
                = some row
              ∧ row[j]? = some (cellCount
                  [⟨some "Flu", some "fever", none, some "D1", true, false⟩,
                   ⟨some "Asthma", some "wheezing", none, some "D2", false, true⟩] c k))
        ∧ (crosstab [⟨some "Flu", some "fever", none, some "D1", true, false⟩,
              ⟨some "Asthma", some "wheezing", none, some "D2", false, true⟩]).rowAll
            = (crosstab [⟨some "Flu", some "fever", none, some "D1", true, false⟩,
                ⟨some "Asthma", some "wheezing", none, some "D2", false, true⟩]).body.map List.sum
        ∧ (∀ (j : Nat) (k : Bool),
            (crosstab [⟨some "Flu", some "fever", none, some "D1", true, false⟩,
              ⟨some "Asthma", some "wheezing", none, some "D2", false, true⟩]).colLabels[j]?
              = some k →
            (crosstab [⟨some "Flu", some "fever", none, some "D1", true, false⟩,
              ⟨some "Asthma", some "wheezing", none, some "D2", false, true⟩]).colAll[j]?
              = some (((crosstab [⟨some "Flu", some "fever", none, some "D1", true, false⟩,
                  ⟨some "Asthma", some "wheezing", none, some "D2", false, true⟩]).body.map
                    (fun row => row.getD j 0)).sum))
        ∧ (crosstab [⟨some "Flu", some "fever", none, some "D1", true, false⟩,
              ⟨some "Asthma", some "wheezing", none, some "D2", false, true⟩]).corner
            = ([⟨some "Flu", some "fever", none, some "D1", true, false⟩,
                ⟨some "Asthma", some "wheezing", none, some "D2", false, true⟩] : List Record).length
        ∧ ((crosstab [⟨some "Flu", some "fever", none, some "D1", true, false⟩,
              ⟨some "Asthma", some "wheezing", none, some "D2", false, true⟩]).rowAll).sum
            = (crosstab [⟨some "Flu", some "fever", none, some "D1", true, false⟩,
                ⟨some "Asthma", some "wheezing", none, some "D2", false, true⟩]).corner) :=
  ⟨by decide, crosstab_cells_margins_correct _ (by decide)⟩

/-- Inside quotes, an ordinary character (not the quote) is data. -/
theorem csvAux_quote_data (c c2 : Char) (cs : List Char) (cell : List Char)
    (row : List String) (acc : List (List String)) (hc : c ≠ dq) :
    csvAux (c :: c2 :: cs) true cell row acc = csvAux (c2 :: cs) true (cell ++ [c]) row acc := by
  simp [csvAux, hc]

/-- Inside quotes, a doubled quote is a literal quote. -/
theorem csvAux_quote_esc (cs : List Char) (cell : List Char) (row : List String)
    (acc : List (List String)) :
    csvAux (dq :: dq :: cs) true cell row acc = csvAux cs true (cell ++ [dq]) row acc := by
  simp [csvAux]

/-- Inside quotes, a single quote followed by a non-quote closes the
quoted cell. -/
theorem csvAux_quote_close (c2 : Char) (cs : List Char) (cell : List Char)
    (row : List String) (acc : List (List String)) (h : c2 ≠ dq) :
    csvAux (dq :: c2 :: cs) true cell row acc = csvAux (c2 :: cs) false cell row acc := by
  simp [csvAux, h]

/-- A closing quote at the very end of the input behaves like end of
input in unquoted mode. -/
theorem csvAux_quote_close_nil (cell : List Char) (row : List String)
    (acc : List (List String)) :
    csvAux [dq] true cell row acc = csvAux [] false cell row acc := by
  simp [csvAux]

/-- Outside quotes, an ordinary character is data. -/
theorem csvAux_false_data (c : Char) (cs : List Char) (cell : List Char)
    (row : List String) (acc : List (List String))
    (h1 : c ≠ ',') (h2 : c ≠ '\n') (h3 : ¬(c = dq ∧ cell = [])) :
    csvAux (c :: cs) false cell row acc = csvAux cs false (cell ++ [c]) row acc := by
  simp [csvAux, h1, h2, h3]

/-- Outside quotes, a comma ends the cell. -/
theorem csvAux_false_comma (cs : List Char) (cell : List Char) (row : List String)
    (acc : List (List String)) :
    csvAux (',' :: cs) false cell row acc
      = csvAux cs false [] (row ++ [String.mk cell]) acc := by
  simp [csvAux]

/-- Outside quotes, a newline after a nonblank line ends the row. -/
theorem csvAux_false_newline (cs : List Char) (cell : List Char) (row : List String)
    (acc : List (List String)) (h : ¬(cell = [] ∧ row = [])) :
    csvAux ('\n' :: cs) false cell row acc
      = csvAux cs false [] [] (acc ++ [row ++ [String.mk cell]]) := by
  simp [csvAux, h]

/-- Outside quotes, a quote at the start of a cell opens a quoted cell. -/
theorem csvAux_false_quoteStart (cs : List Char) (row : List String)
    (acc : List (List String)) :
    csvAux (dq :: cs) false [] row acc = csvAux cs true [] row acc := by
  simp [csvAux, show dq ≠ ',' from by decide, show dq ≠ '\n' from by decide]

/-- Rebuilding a string from its character list. -/
theorem string_mk_toList (s : String) : String.mk s.toList = s := by
  cases s
  rfl

/-- A string with an empty character list is the empty string. -/
theorem string_of_toList_nil (s : String) (h : s.toList = []) : s = "" := by
  cases s
  simp [String.toList] at h
  simp [h]

/-- Consuming an escaped cell body and its closing quote: the parser in
quote mode turns the escaped text back into the original text and leaves
quote mode, provided the input continues with a non-quote (or ends). -/
theorem csvAux_escQuote (l : List Char) :
    ∀ (rest cell : List Char) (row : List String) (acc : List (List String)),
      rest.head? ≠ some dq →
      csvAux (escQuote l ++ dq :: rest) true cell row acc
        = csvAux rest false (cell ++ l) row acc := by
  induction l with
  | nil =>
      intro rest cell row acc hrest
      cases rest with
      | nil => simp [escQuote, csvAux]
      | cons r1 rest2 =>
          have hr1 : r1 ≠ dq := by
            intro h
            exact hrest (by simp [h])
          simp [escQuote, csvAux_quote_close r1 rest2 cell row acc hr1]
  | cons ch l2 ih =>
      intro rest cell row acc hrest
      by_cases hch : ch = dq
      · subst hch
        have he : escQuote (dq :: l2) = dq :: dq :: escQuote l2 := by simp [escQuote]
        rw [he, List.cons_append, List.cons_append, csvAux_quote_esc,
          ih rest (cell ++ [dq]) row acc hrest]
        simp
      · have he : escQuote (ch :: l2) = ch :: escQuote l2 := by simp [escQuote, hch]
        rw [he, List.cons_append]
        cases hesc : escQuote l2 ++ dq :: rest with
        | nil => exact absurd hesc (by simp)
        | cons c2 cs2 =>
            rw [csvAux_quote_data ch c2 cs2 cell row acc hch, ← hesc,
              ih rest (cell ++ [ch]) row acc hrest]
            simp

/-- Consuming an unquoted cell body: ordinary characters accumulate into
the cell. -/
theorem csvAux_raw (l : List Char)
    (hl : ∀ c ∈ l, ¬(c = ',' ∨ c = dq ∨ c = '\n' ∨ c = '\r')) :
    ∀ (rest cell : List Char) (row : List String) (acc : List (List String)),
      csvAux (l ++ rest) false cell row acc = csvAux rest false (cell ++ l) row acc := by
  induction l with
  | nil => intro rest cell row acc; simp
  | cons ch l2 ih =>
      intro rest cell row acc
      have h1 := hl ch (List.mem_cons_self _ _)
      push_neg at h1
      obtain ⟨hc1, hc2, hc3, _⟩ := h1
      rw [List.cons_append,
        csvAux_false_data ch (l2 ++ rest) cell row acc hc1 hc3 (fun h => hc2 h.1),
        ih (fun c hc => hl c (List.mem_cons_of_mem _ hc)) rest (cell ++ [ch]) row acc]
      simp

/-- Consuming one rendered cell up to the following delimiter: the parser
recovers exactly the original cell text, quoted or not. -/
theorem csvAux_cell (s : String) (d : Char) (hd : d = ',' ∨ d = '\n')
    (rest : List Char) (row : List String) (acc : List (List String)) :
    csvAux (renderCell s ++ d :: rest) false [] row acc
      = csvAux (d :: rest) false s.toList row acc := by
  by_cases hq : needsQuote s = true
  · rw [renderCell, if_pos hq, List.cons_append, List.append_assoc]
    rw [csvAux_false_quoteStart]
    rw [show (([dq] : List Char) ++ d :: rest) = dq :: d :: rest from rfl]
    rw [csvAux_escQuote s.toList (d :: rest) [] row acc ?hdq]
    case hdq =>
      rcases hd with rfl | rfl <;> simp <;> decide
    simp
  · have hq2 : needsQuote s = false := by simpa using hq
    simp only [needsQuote, List.any_eq_false] at hq2
    have hl : ∀ c ∈ s.toList, ¬(c = ',' ∨ c = dq ∨ c = '\n' ∨ c = '\r') := by
      intro c hc
      have h3 := hq2 c hc
      simp at h3
      tauto
    rw [renderCell, if_neg hq, csvAux_raw s.toList hl (d :: rest) [] row acc]
    simp

/-- Consuming one rendered row and its terminating newline: the row's
cells are appended as one parsed row, provided the line is not blank. -/
theorem csvAux_row (cells : List String) :
    ∀ (rest : List Char) (row : List String) (acc : List (List String)),
      cells ≠ [] → ¬(row = [] ∧ cells = [""]) →
      csvAux (renderRow cells ++ '\n' :: rest) false [] row acc
        = csvAux rest false [] [] (acc ++ [row ++ cells]) := by
  induction cells with
  | nil => intro rest row acc h _; exact absurd rfl h
  | cons c cs ih =>
      intro rest row acc hne hblank
      cases cs with
      | nil =>
          rw [show renderRow [c] = renderCell c from rfl,
            csvAux_cell c '\n' (Or.inr rfl) rest row acc]
          have hnb : ¬(c.toList = [] ∧ row = []) := by
            rintro ⟨h1, h2⟩
            exact hblank ⟨h2, by rw [string_of_toList_nil c h1]⟩
          rw [csvAux_false_newline rest c.toList row acc hnb, string_mk_toList]
      | cons c2 cs2 =>
          rw [show renderRow (c :: c2 :: cs2) = renderCell c ++ ',' :: renderRow (c2 :: cs2)
              from rfl,
            List.append_assoc,
            show ((',' :: renderRow (c2 :: cs2) : List Char) ++ '\n' :: rest)
              = ',' :: (renderRow (c2 :: cs2) ++ '\n' :: rest) from rfl,
            csvAux_cell c ',' (Or.inl rfl) _ row acc,
            csvAux_false_comma _ c.toList row acc, string_mk_toList,
            ih rest (row ++ [c]) acc (by simp) (by simp)]
          simp

/-- Parsing the rendition of a whole list of rows recovers the rows,
provided no row is empty or a single empty cell (pandas would skip such a
blank line). -/
theorem csvAux_renderRows (rows : List (List String)) :
    ∀ acc, (∀ r ∈ rows, r ≠ [] ∧ r ≠ [""]) →
      csvAux (renderRows rows) false [] [] acc = acc ++ rows := by
  induction rows with
  | nil => intro acc _; simp [renderRows, csvAux]
  | cons r rs ih =>
      intro acc h
      have h1 := h r (List.mem_cons_self _ _)
      rw [show renderRows (r :: rs) = renderRow r ++ '\n' :: renderRows rs from rfl,
        csvAux_row r (renderRows rs) [] acc h1.1 (fun hc => h1.2 hc.2),
        ih (acc ++ [[] ++ r]) (fun r2 h2 => h (r2) (List.mem_cons_of_mem _ h2))]
      simp

/-- The tokenizer inverts the renderer. -/
theorem read_csv_tokens_to_csv (rows : List (List String))
    (h : ∀ r ∈ rows, r ≠ [] ∧ r ≠ [""]) :
    read_csv_tokens (to_csv rows) = rows := by
  unfold read_csv_tokens to_csv
  rw [show (String.mk (renderRows rows)).toList = renderRows rows from rfl]
  simpa using csvAux_renderRows rows [] h

/-- `read_csv` on a rendered file returns the header and data rows as
written — whatever the header happens to contain. -/
theorem load_data_to_csv (hdr : List String) (rows : List (List String))
    (hh : hdr ≠ [] ∧ hdr ≠ [""]) (hr : ∀ r ∈ rows, r ≠ [] ∧ r ≠ [""]) :
    load_data (to_csv (hdr :: rows)) = ⟨hdr, rows⟩ := by
  unfold load_data
  rw [read_csv_tokens_to_csv (hdr :: rows) ?_]
  · intro r hrm
    rcases List.mem_cons.mp hrm with rfl | hm
    · exact hh
    · exact hr r hm

/-- A stable optional text field survives the cell codec. -/
theorem decodeStr_optCell (v : Option String) (hv : stableOpt v = true) :
    decodeStr (optCell v) = v := by
  cases v with
  | none => rfl
  | some s =>
      simp only [stableOpt, stableCell, Bool.and_eq_true, Bool.not_eq_eq_eq_not,
        Bool.not_true] at hv
      have hna : s ∉ naTokens := by
        have h0 := hv.1.1
        simp at h0
        exact h0
      simp [decodeStr, optCell, hna]

/-- A rendered boolean survives the cell codec. -/
theorem decodeBool_boolCell (b : Bool) : decodeBool (boolCell b) = Except.ok b := by
  cases b <;> rfl

/-- Decoding the rendered cells of a stable record by column name
recovers the record. -/
theorem decodeRecord_recordCells (r : Record) (hr : stableRecord r = true) :
    decodeRecord schemaHeader (recordCells r) = Except.ok r := by
  obtain ⟨n, sy, tr, dc, co, ch⟩ := r
  simp only [stableRecord, Bool.and_eq_true] at hr
  obtain ⟨⟨⟨h1, h2⟩, h3⟩, h4⟩ := hr
  have step : decodeRecord schemaHeader (recordCells ⟨n, sy, tr, dc, co, ch⟩)
      = Except.ok ⟨decodeStr (optCell n), decodeStr (optCell sy),
          decodeStr (optCell tr), decodeStr (optCell dc), co, ch⟩ := by
    cases co <;> cases ch <;> rfl
  rw [step, decodeStr_optCell n h1, decodeStr_optCell sy h2,
    decodeStr_optCell tr h3, decodeStr_optCell dc h4]

/-- Decoding the rendered rows of a stable table recovers the table. -/
theorem decodeRows_map (df : List Record) (h : ∀ r ∈ df, stableRecord r = true) :
    decodeRows schemaHeader (df.map recordCells) = Except.ok df := by
  induction df with
  | nil => rfl
  | cons r t ih =>
      rw [show decodeRows schemaHeader (List.map recordCells (r :: t))
          = (do
              let r2 ← decodeRecord schemaHeader (recordCells r)
              let rs ← decodeRows schemaHeader (List.map recordCells t)
              Except.ok (r2 :: rs)) from rfl,
        decodeRecord_recordCells r (h r (List.mem_cons_self _ _)),
        ih (fun r2 h2 => h r2 (List.mem_cons_of_mem _ h2))]
      rfl

/-- Loading an exported stable table yields the same table. -/
theorem read_table_roundtrip (df : List Record) (h : ∀ r ∈ df, stableRecord r = true) :
    read_table (convert_df_to_csv df) = Except.ok df := by
  unfold read_table convert_df_to_csv
  rw [load_data_to_csv schemaHeader (df.map recordCells) (by constructor <;> decide) ?_]
  · exact decodeRows_map df h
  · intro rr hrr
    obtain ⟨r0, _, rfl⟩ := List.mem_map.mp hrr
    constructor <;> simp [recordCells]

/-- C4 counterexample: `load_data` is just `pd.read_csv(path)` — it
performs no schema validation, so on a file whose header lacks every
required column it returns a table missing them all instead of failing
with a SchemaError. -/
theorem load_data_counterexample_missing_columns :
    load_data "A,B\nx,y\n" = ⟨["A", "B"], [["x", "y"]]⟩
      ∧ "Name" ∉ (load_data "A,B\nx,y\n").header
      ∧ "Contagious" ∉ (load_data "A,B\nx,y\n").header :=
  ⟨by decide, by decide, by decide⟩

/-- C4 (amended): `load_data` performs no schema validation at all — on
any well-formed CSV it returns the file's own header and rows unchanged,
whether or not the required columns are present; a missing required
column is not detected at load time. -/
theorem load_data_returns_file_columns_unvalidated (hdr : List String)
    (rows : List (List String)) (hh : hdr ≠ [] ∧ hdr ≠ [""])
    (hr : ∀ r ∈ rows, r ≠ [] ∧ r ≠ [""]) :
    load_data (to_csv (hdr :: rows)) = ⟨hdr, rows⟩ :=
  load_data_to_csv hdr rows hh hr

/-- Witness for C4 on a file with none of the required columns. -/
theorem load_data_unvalidated_witness :
    ((["A", "B"] : List String) ≠ [] ∧ (["A", "B"] : List String) ≠ [""])
      ∧ (∀ r ∈ ([["x", "y"]] : List (List String)), r ≠ [] ∧ r ≠ [""])
      ∧ load_data (to_csv [["A", "B"], ["x", "y"]]) = ⟨["A", "B"], [["x", "y"]]⟩ :=
  ⟨⟨by decide, by decide⟩, by decide,
    load_data_returns_file_columns_unvalidated _ _ ⟨by decide, by decide⟩ (by decide)⟩

/-- C9 counterexample: a record whose Treatments field is the empty
string (a legal table value) does not survive the round trip — `to_csv`
writes the empty cell and `read_csv` reads the empty cell back as NaN, so
the loaded table differs from the exported one. -/
theorem roundtrip_counterexample_empty_string_field :
    apply_filters [⟨some "Flu", some "fever", some "", some "D1", true, false⟩]
        ⟨"", "All", "All", 10⟩
        = [⟨some "Flu", some "fever", some "", some "D1", true, false⟩]
      ∧ read_table (convert_df_to_csv (apply_filters
            [⟨some "Flu", some "fever", some "", some "D1", true, false⟩]
            ⟨"", "All", "All", 10⟩))
          = Except.ok [⟨some "Flu", some "fever", none, some "D1", true, false⟩]
      ∧ ([⟨some "Flu", some "fever", none, some "D1", true, false⟩] : List Record)
          ≠ [⟨some "Flu", some "fever", some "", some "D1", true, false⟩] :=
  ⟨by decide, by decide, by decide⟩

/-- C9 (amended): for every table whose fields survive the CSV cell codec
(each text field absent or a string that is not a NaN token, not a
boolean token and not numeric/inf-parseable even after the whitespace and
sign stripping pandas performs) and every FilterSpec, loading the
exported filtered table yields exactly the filtered table, and
re-exporting what was loaded is byte-identical to the original export.
(Tables holding codec-unstable strings — `""`, `"NA"`, `"inf"`, `" 1"`,
`"True"`, … — can fail the round trip: pandas reparses such cells as
missing values or under a different dtype.) -/
theorem csv_roundtrip_for_stable_tables (table : List Record) (s : FilterSpec)
    (h : ∀ r ∈ table, stableRecord r = true) :
    read_table (convert_df_to_csv (apply_filters table s))
        = Except.ok (apply_filters table s)
      ∧ ∀ loaded, read_table (convert_df_to_csv (apply_filters table s))
            = Except.ok loaded →
          convert_df_to_csv loaded = convert_df_to_csv (apply_filters table s) := by
  have hsub : ∀ r ∈ apply_filters table s, stableRecord r = true := fun r hr =>
    h r ((apply_filters_sublist table s).subset hr)
  have h1 := read_table_roundtrip (apply_filters table s) hsub
  refine ⟨h1, ?_⟩
  intro loaded hl
  rw [h1] at hl
  injection hl with h2
  rw [← h2]

/-- Witness for C9 on a concrete stable table and the neutral spec. -/
theorem csv_roundtrip_witness :
    (∀ r ∈ ([⟨some "Flu", some "fever and chills", none, some "D1", true, false⟩] :
        List Record), stableRecord r = true)
      ∧ (read_table (convert_df_to_csv (apply_filters
            [⟨some "Flu", some "fever and chills", none, some "D1", true, false⟩]
            ⟨"", "All", "All", 10⟩))
          = Except.ok (apply_filters
              [⟨some "Flu", some "fever and chills", none, some "D1", true, false⟩]
              ⟨"", "All", "All", 10⟩)
        ∧ ∀ loaded, read_table (convert_df_to_csv (apply_filters
              [⟨some "Flu", some "fever and chills", none, some "D1", true, false⟩]
              ⟨"", "All", "All", 10⟩))
              = Except.ok loaded →
            convert_df_to_csv loaded = convert_df_to_csv (apply_filters
              [⟨some "Flu", some "fever and chills", none, some "D1", true, false⟩]
              ⟨"", "All", "All", 10⟩)) :=
  ⟨by decide, csv_roundtrip_for_stable_tables _ _ (by decide)⟩
